import Mathlib

/-
Shallow embedding of the Regolith filter-orchestration engine
(package regolith: SetupTmpFiles, CheckProfileImpl, RunProfileImpl,
RunProfile, RemoteFilter.SubfilterCollection, and the command layer
Install / Run / Watch from main_functions.go).

File-system and network calls are modelled by explicit environments
recording the outcome each call would produce, and every modelled Go
function additionally returns the ordered trace of the side effects it
performed, so that ordering and fail-fast claims are statable.
-/

namespace Regolith

/-- Go-style error chain: WrappedError produces a leaf, WrapError wraps a
cause with an added context message (mirroring the WrapError / WrappedError
helpers used throughout the source). -/
inductive GoErr where
  | simple (msg : String)
  | wrapped (msg : String) (cause : GoErr)
deriving DecidableEq, Repr

/-- The outcome of an os.Stat call, as distinguished by the source:
the path does not exist (os.IsNotExist), Stat failed with some other error,
the path is a directory, or the path is a regular file. -/
inductive StatResult where
  | notExist
  | otherErr (e : GoErr)
  | dir
  | file
deriving DecidableEq, Repr

/-- Side effects of one pipeline invocation (RunProfile and its phases). -/
inductive Event where
  | removeTmp
  | mkdirTmp
  | warnMissing (descr path : String)
  | mkdirRole (short : String)
  | copyRole (src short : String)
  | checked (id : String)
  | ran (id : String)
  | exported
  | removeTmpData
deriving DecidableEq, Repr

/-- A bound filter instance inside a profile. Check and Run are opaque
externals (the polymorphic FilterRunner interface); their outcomes for the
current invocation are carried as data. -/
structure FilterRunner where
  id : String
  arguments : List String
  disabled : Bool
  checkResult : Option GoErr
  runResult : Option GoErr
deriving DecidableEq, Repr

/-- Export target of a profile (mode and read-only flag; the export
mechanics themselves are external collaborators). -/
structure ExportTarget where
  target : String
  readOnly : Bool
deriving DecidableEq, Repr

/-- A profile: ordered filter list plus an export target. -/
structure Profile where
  filters : List FilterRunner
  exportTarget : ExportTarget
deriving DecidableEq, Repr

/-- The zero value of the Profile struct, produced by a Go map access on a
missing key. -/
def zeroProfile : Profile :=
  { filters := [], exportTarget := { target := "", readOnly := false } }

/-- Project configuration (the fields used by the modelled functions). -/
structure Config where
  name : String
  resourceFolder : String
  behaviorFolder : String
  dataPath : String
  profiles : List (String × Profile)
deriving DecidableEq, Repr

/-- Outcomes of the file-system calls made by SetupTmpFiles, ExportProject
and the final cleanup of RunProfile. -/
structure FsEnv where
  removeTmpErr : Option GoErr
  mkdirTmpErr : Option GoErr
  stat : String → StatResult
  mkdirRoleErr : String → Option GoErr
  copyErr : String → String → Option GoErr
  exportErr : Option GoErr
  removeTmpDataErr : Option GoErr

/-- The setup_tmp_directory closure from SetupTmpFiles. For a non-empty
path it calls os.Stat: a not-exist error warns and creates an empty
placeholder directory; any other Stat error falls through the
if-chain and the closure returns nil without creating anything; a
directory is copied; a regular file is an error. An empty path directly
creates the placeholder directory. -/
def setup_tmp_directory (env : FsEnv) (path short descr : String) :
    List Event × Option GoErr :=
  if path = "" then
    match env.mkdirRoleErr short with
    | some e =>
      ([Event.mkdirRole short],
       some (GoErr.wrapped
         ("Failed to create \".regolith/tmp/" ++ short ++ "\" directory.") e))
    | none => ([Event.mkdirRole short], none)
  else
    match env.stat path with
    | StatResult.notExist =>
      match env.mkdirRoleErr short with
      | some e =>
        ([Event.warnMissing descr path, Event.mkdirRole short],
         some (GoErr.wrapped
           ("Failed to create \".regolith/tmp/" ++ short ++ "\" directory.") e))
      | none =>
        ([Event.warnMissing descr path, Event.mkdirRole short], none)
    | StatResult.otherErr _ => ([], none)
    | StatResult.dir =>
      match env.copyErr path short with
      | some e =>
        ([Event.copyRole path short],
         some (GoErr.wrapped
           ("Failed to copy " ++ descr ++ " \"" ++ path ++
            "\" to \".regolith/tmp/" ++ short ++ "\".") e))
      | none => ([Event.copyRole path short], none)
    | StatResult.file =>
      ([], some (GoErr.simple
        (descr ++ " path \"" ++ path ++ "\" is not a directory")))

/-- SetupTmpFiles: clear and recreate .regolith/tmp, then stage the
resource folder, behavior folder and data folder via setup_tmp_directory,
failing fast on the first error. -/
def SetupTmpFiles (env : FsEnv) (config : Config) :
    List Event × Option GoErr :=
  match env.removeTmpErr with
  | some e =>
    ([Event.removeTmp],
     some (GoErr.wrapped
       "Unable to clean temporary directory: \".regolith/tmp\"." e))
  | none =>
  match env.mkdirTmpErr with
  | some e =>
    ([Event.removeTmp, Event.mkdirTmp],
     some (GoErr.wrapped
       "Unable to prepare temporary directory: \"./regolith/tmp\"." e))
  | none =>
  match setup_tmp_directory env config.resourceFolder "RP" "resource folder" with
  | (t1, some e) =>
    ([Event.removeTmp, Event.mkdirTmp] ++ t1,
     some (GoErr.wrapped
       "Failed to setup resource folder in the temporary directory." e))
  | (t1, none) =>
  match setup_tmp_directory env config.behaviorFolder "BP" "behavior folder" with
  | (t2, some e) =>
    ([Event.removeTmp, Event.mkdirTmp] ++ t1 ++ t2,
     some (GoErr.wrapped
       "Failed to setup behavior folder in the temporary directory." e))
  | (t2, none) =>
  match setup_tmp_directory env config.dataPath "data" "data folder" with
  | (t3, some e) =>
    ([Event.removeTmp, Event.mkdirTmp] ++ t1 ++ t2 ++ t3,
     some (GoErr.wrapped
       "Failed to setup data folder in the temporary directory." e))
  | (t3, none) =>
    ([Event.removeTmp, Event.mkdirTmp] ++ t1 ++ t2 ++ t3, none)

/-- CheckProfileImpl: invoke Check on every filter of the profile, in
order, with no regard to the disabled flag, aborting on the first
failure. -/
def CheckProfileImpl : List FilterRunner → List Event × Option GoErr
  | [] => ([], none)
  | f :: fs =>
    match f.checkResult with
    | some e =>
      ([Event.checked f.id], some (GoErr.wrapped "Filter check failed." e))
    | none =>
      match CheckProfileImpl fs with
      | (t, r) => (Event.checked f.id :: t, r)

/-- RunProfileImpl: run the filters in order; a disabled filter is skipped
entirely (only logged); abort on the first Run failure. -/
def RunProfileImpl : List FilterRunner → List Event × Option GoErr
  | [] => ([], none)
  | f :: fs =>
    if f.disabled then RunProfileImpl fs
    else
      match f.runResult with
      | some e =>
        ([Event.ran f.id], some (GoErr.wrapped "Failed to run filter." e))
      | none =>
        match RunProfileImpl fs with
        | (t, r) => (Event.ran f.id :: t, r)

/-- Go map access config.Profiles[profileName]: yields the zero value when
the key is absent. -/
def lookupProfile (profiles : List (String × Profile)) (name : String) :
    Profile :=
  match profiles.lookup name with
  | some p => p
  | none => zeroProfile

/-- RunProfile (the pipeline executor): load config.json, pick the profile,
then Check, Stage (SetupTmpFiles), Run, Export, and finally delete the
transient .regolith/tmp/data subdirectory. loadErr is the combined outcome
of LoadConfigAsMap / ConfigFromObject. -/
def RunProfile (env : FsEnv) (loadErr : Option GoErr) (config : Config)
    (profileName : String) : List Event × Option GoErr :=
  match loadErr with
  | some e => ([], some (GoErr.wrapped "Could not load \"config.json\"." e))
  | none =>
  match CheckProfileImpl (lookupProfile config.profiles profileName).filters with
  | (tc, some e) => (tc, some e)
  | (tc, none) =>
  match SetupTmpFiles env config with
  | (ts, some e) =>
    (tc ++ ts, some (GoErr.wrapped "Unable to setup profile." e))
  | (ts, none) =>
  match RunProfileImpl (lookupProfile config.profiles profileName).filters with
  | (tr, some e) => (tc ++ ts ++ tr, some e)
  | (tr, none) =>
  match env.exportErr with
  | some e =>
    (tc ++ ts ++ tr ++ [Event.exported],
     some (GoErr.wrapped "Exporting project failed." e))
  | none =>
  match env.removeTmpDataErr with
  | some e =>
    (tc ++ ts ++ tr ++ [Event.exported, Event.removeTmpData],
     some (GoErr.wrapped "Unable to clean .regolith/tmp/data directory." e))
  | none =>
    (tc ++ ts ++ tr ++ [Event.exported, Event.removeTmpData], none)

/-- A remote filter (the fields SubfilterCollection reads: GetDownloadPath
and the Id plus the arguments propagated onto sub-filters). -/
structure RemoteFilter where
  id : String
  arguments : List String
  downloadPath : String
deriving DecidableEq, Repr

/-- Modelled from the spec: FilterRunner.CopyArguments is not under src/;
per spec section 4.2 it propagates the parent remote filter's bound
arguments onto the sub-filter runner. -/
def CopyArguments (r : FilterRunner) (parent : RemoteFilter) : FilterRunner :=
  { r with arguments := r.arguments ++ parent.arguments }

/-- One entry of the "filters" list of a remote filter's filter.json, as
seen through the external constructors it is fed to
(FilterInstallerFromObject and CreateFilterRunner are not under src/; an
entry is abstracted by the outcome of that construction chain): the entry
is not a JSON map, installer construction fails, runner construction
fails, or a runner is produced and either is or is not a RemoteFilter. -/
inductive SubEntry where
  | notMap
  | installerErr (e : GoErr)
  | runnerErr (e : GoErr)
  | runner (isRemote : Bool) (r : FilterRunner)
deriving DecidableEq, Repr

/-- The descriptor file of a remote filter as SubfilterCollection reads
it: unreadable, not valid JSON, its "filters" key missing or not a list,
or a list of entries. -/
inductive DescriptorFile where
  | readErr (e : GoErr)
  | badJson (e : GoErr)
  | noFiltersList
  | filters (entries : List SubEntry)
deriving DecidableEq, Repr

/-- The error message produced when a sub-filter of a remote filter is
itself remote (WrappedErrorf in SubfilterCollection). -/
def remoteSubfilterMsg (parentId : String) (i : Nat) : String :=
  "remote filters are not allowed in subfilters. Remote filter \"" ++
    parentId ++ "\" subfilter " ++ toString i

/-- The "Could not parse filter i of path." message of
SubfilterCollection. -/
def subfilterParseMsg (i : Nat) (path : String) : String :=
  "Could not parse filter " ++ toString i ++ " of \"" ++ path ++ "\"."

/-- The loop body of SubfilterCollection over the entries of the
"filters" list, tracking the entry index. The first failing entry aborts;
a successfully created runner that is a RemoteFilter aborts with the
remote-subfilter error naming the parent id and the index; otherwise the
parent's arguments are copied onto the runner and it is appended. -/
def subfilterLoop (f : RemoteFilter) (path : String) :
    List SubEntry → Nat → Except GoErr (List FilterRunner)
  | [], _ => Except.ok []
  | e :: rest, i =>
    match e with
    | SubEntry.notMap =>
      Except.error (GoErr.simple (subfilterParseMsg i path))
    | SubEntry.installerErr er =>
      Except.error (GoErr.wrapped (subfilterParseMsg i path) er)
    | SubEntry.runnerErr er =>
      Except.error (GoErr.wrapped (subfilterParseMsg i path) er)
    | SubEntry.runner isRemote r =>
      if isRemote then
        Except.error (GoErr.simple (remoteSubfilterMsg f.id i))
      else
        match subfilterLoop f path rest (i + 1) with
        | Except.error er => Except.error er
        | Except.ok rs => Except.ok (CopyArguments r f :: rs)

/-- SubfilterCollection: read and parse filter.json at the remote
filter's download path, then expand its "filters" list into a collection,
rejecting remote sub-filters. -/
def SubfilterCollection (f : RemoteFilter) (file : DescriptorFile) :
    Except GoErr (List FilterRunner) :=
  match file with
  | DescriptorFile.readErr e =>
    Except.error (GoErr.wrapped
      ("Couldn't read \"" ++ f.downloadPath ++ "/filter.json\".") e)
  | DescriptorFile.badJson e =>
    Except.error (GoErr.wrapped
      ("Couldn't load " ++ f.downloadPath ++
       "/filter.json! Does the file contain correct json?") e)
  | DescriptorFile.noFiltersList =>
    Except.error (GoErr.simple
      ("Could not parse filters of \"" ++ f.downloadPath ++
       "/filter.json\"."))
  | DescriptorFile.filters entries =>
    subfilterLoop f (f.downloadPath ++ "/filter.json") entries 0

/-- Phase classification: events produced by the Check phase. -/
def isCheckEv : Event → Prop
  | Event.checked _ => True
  | _ => False

/-- Phase classification: events produced by the Stage phase. -/
def isStageEv : Event → Prop
  | Event.removeTmp => True
  | Event.mkdirTmp => True
  | Event.warnMissing _ _ => True
  | Event.mkdirRole _ => True
  | Event.copyRole _ _ => True
  | _ => False

/-- Phase classification: events produced by the Run phase. -/
def isRunEv : Event → Prop
  | Event.ran _ => True
  | _ => False

/-- Phase classification: events produced by the Export phase and the
final cleanup. -/
def isExportEv : Event → Prop
  | Event.exported => True
  | Event.removeTmpData => True
  | _ => False

/-- One parsed argument of the install command:
url==version (or url alone, with the version resolved by the parser). -/
structure ParsedArg where
  url : String
  name : String
  version : String
deriving DecidableEq, Repr

/-- A remote filter definition as persisted into the configuration's
filterDefinitions map (the fields the modelled claims read). -/
structure RemoteFilterDefinition where
  url : String
  version : String
deriving DecidableEq, Repr

/-- Side effects of the command layer (Install and friends). -/
inductive CmdEvent where
  | acquireLock
  | releaseLock
  | download (name : String)
  | installFilters
  | writeConfig
deriving DecidableEq, Repr

/-- The text of the aquireSessionLockError constant (declared outside
src/; its exact wording is irrelevant to the claims, only its identity as
the wrap message of a lock-acquisition failure). -/
def aquireSessionLockError : String := "Could not acquire the session lock."

/-- The "already installed" error message of Install (WrappedErrorf at
the force check). -/
def alreadyInstalledMsg (name : String) : String :=
  "The filter is already on the filter definitions list.\nFilter: " ++
    name ++
    "\nIf you want to force the installation of the filter, " ++
    "please add \"" ++ "--force" ++ "\" flag to your " ++
    "\"regolith install\" command"

/-- The wrap message of a failed FilterDefinitionFromTheInternet call in
Install. -/
def downloadFailMsg (a : ParsedArg) : String :=
  "Unable to download the filter definition from the Internet.\n" ++
    "Filter repository Url: " ++ a.url ++ "\n" ++
    "Filter name: " ++ a.name ++ "\n" ++
    "Filter version: " ++ a.version ++ "\n"

/-- The wrap message of a failed config-file write at the end of
Install. -/
def writeFailMsg (n : Nat) : String :=
  "Successfully downloaded " ++ toString n ++
    " filtersbut failed to update the config file.\n" ++
    "Run \"regolith clean\" to fix invalid cache state."

/-- Outcomes of the external calls made by Install. -/
structure InstallEnv where
  parseResult : Except GoErr (List ParsedArg)
  loadConfigErr : Option GoErr
  dataPathErr : Option GoErr
  filterDefsErr : Option GoErr
  filterDefinitions : List String
  dotRegolithErr : Option GoErr
  lockErr : Option GoErr
  releaseErr : Option GoErr
  download : ParsedArg → Except GoErr RemoteFilterDefinition
  installFiltersErr : Option GoErr
  writeErr : Option GoErr

/-- The download loop of Install (lines 81-101): fetch each filter
definition from the Internet and, when the requested version specifier is
the literal HEAD or latest, overwrite the resolved Version field with
that literal before recording the installer. -/
def downloadAll (env : InstallEnv) :
    List ParsedArg →
    List CmdEvent × Except GoErr (List (String × RemoteFilterDefinition))
  | [] => ([], Except.ok [])
  | a :: rest =>
    match env.download a with
    | Except.error e =>
      ([CmdEvent.download a.name],
       Except.error (GoErr.wrapped (downloadFailMsg a) e))
    | Except.ok d0 =>
      let d := if a.version = "HEAD" ∨ a.version = "latest"
               then { d0 with version := a.version } else d0
      match downloadAll env rest with
      | (t, Except.error e) =>
        (CmdEvent.download a.name :: t, Except.error e)
      | (t, Except.ok ds) =>
        (CmdEvent.download a.name :: t, Except.ok ((a.name, d) :: ds))

/-- Result of a modelled command: the effect trace, the filter-installer
entries written into the persisted configuration (none when the config
file was not successfully written), and the returned error. -/
structure InstallOut where
  trace : List CmdEvent
  written : Option (List (String × RemoteFilterDefinition))
  ret : Option GoErr
deriving DecidableEq, Repr

/-- Install. The session lock is acquired once the preliminary steps
succeed and released by a deferred call on every subsequent exit path.
Because the Go function's result parameter is unnamed, the deferred
assignment sessionLockErr = unlockSession() mutates only the local
variable after the return value has already been set, so the value
returned by the final return sessionLockErr statement is the snapshot
taken at that statement - nil when acquisition succeeded - and the
release error can never reach the caller on any path. -/
def Install (env : InstallEnv) (force : Bool) : InstallOut :=
  match env.parseResult with
  | Except.error e =>
    ⟨[], none, some (GoErr.wrapped "Failed to parse arguments." e)⟩
  | Except.ok parsedArgs =>
  match env.loadConfigErr with
  | some e => ⟨[], none, some (GoErr.wrapped "Unable to load config file." e)⟩
  | none =>
  match env.dataPathErr with
  | some e =>
    ⟨[], none,
     some (GoErr.wrapped "Failed to get data path from config file." e)⟩
  | none =>
  match env.filterDefsErr with
  | some e =>
    ⟨[], none,
     some (GoErr.wrapped
       "Failed to get the list of filter definitions from config file." e)⟩
  | none =>
  match env.dotRegolithErr with
  | some e =>
    ⟨[], none,
     some (GoErr.wrapped
       "Unable to get the path to regolith cache folder." e)⟩
  | none =>
  match env.lockErr with
  | some e =>
    ⟨[CmdEvent.acquireLock], none,
     some (GoErr.wrapped aquireSessionLockError e)⟩
  | none =>
  match (if force then none
         else parsedArgs.find?
           (fun a => env.filterDefinitions.contains a.name)) with
  | some a =>
    ⟨[CmdEvent.acquireLock, CmdEvent.releaseLock], none,
     some (GoErr.simple (alreadyInstalledMsg a.name))⟩
  | none =>
  match downloadAll env parsedArgs with
  | (t, Except.error e) =>
    ⟨CmdEvent.acquireLock :: t ++ [CmdEvent.releaseLock], none, some e⟩
  | (t, Except.ok installers) =>
  match env.installFiltersErr with
  | some e =>
    ⟨CmdEvent.acquireLock :: t ++
       [CmdEvent.installFilters, CmdEvent.releaseLock], none,
     some (GoErr.wrapped "Failed to install filters." e)⟩
  | none =>
  match env.writeErr with
  | some e =>
    ⟨CmdEvent.acquireLock :: t ++
       [CmdEvent.installFilters, CmdEvent.writeConfig,
        CmdEvent.releaseLock], none,
     some (GoErr.wrapped (writeFailMsg parsedArgs.length) e)⟩
  | none =>
    ⟨CmdEvent.acquireLock :: t ++
       [CmdEvent.installFilters, CmdEvent.writeConfig,
        CmdEvent.releaseLock],
     some installers, none⟩

/-- Modelled from the spec: FilterDefinitionFromTheInternet is not under
src/. Per spec section 4.4, resolution contacts the remote source to
determine the concrete commit or tag satisfying the specifier: HEAD and
latest resolve to a concrete commit/tag (represented by the
resolveConcrete oracle), while an explicit version or commit hash is
taken verbatim. -/
def FilterDefinitionFromTheInternet
    (resolveConcrete : ParsedArg → String) (a : ParsedArg) :
    RemoteFilterDefinition :=
  if a.version = "HEAD" ∨ a.version = "latest" then
    { url := a.url, version := resolveConcrete a }
  else
    { url := a.url, version := a.version }

/-- Outcomes of the external calls made by runOrWatch / Run. -/
structure RunEnv where
  loadConfigErr : Option GoErr
  config : Config
  dotRegolithErr : Option GoErr
  createDirErr : Option GoErr
  lockErr : Option GoErr
  releaseErr : Option GoErr
  fs : FsEnv

/-- The unknown-profile error message of runOrWatch. -/
def unknownProfileMsg (profileName : String) : String :=
  "Profile \"" ++ profileName ++ "\" does not exist in the configuration."

/-- Modelled from the spec: the RunProfile(context) overload called by
runOrWatch is not under src/ (src/ holds only the older
RunProfile(profileName) pipeline). Per spec section 4.3 it drives the
Stage, Run, Export and cleanup phases of the already-checked profile over
the shared workspace. -/
def RunProfileCtx (fs : FsEnv) (config : Config) (profile : Profile) :
    List Event × Option GoErr :=
  match SetupTmpFiles fs config with
  | (ts, some e) =>
    (ts, some (GoErr.wrapped "Unable to setup profile." e))
  | (ts, none) =>
  match RunProfileImpl profile.filters with
  | (tr, some e) => (ts ++ tr, some e)
  | (tr, none) =>
  match fs.exportErr with
  | some e =>
    (ts ++ tr ++ [Event.exported],
     some (GoErr.wrapped "Exporting project failed." e))
  | none =>
  match fs.removeTmpDataErr with
  | some e =>
    (ts ++ tr ++ [Event.exported, Event.removeTmpData],
     some (GoErr.wrapped "Unable to clean .regolith/tmp/data directory." e))
  | none =>
    (ts ++ tr ++ [Event.exported, Event.removeTmpData], none)

/-- Run, that is runOrWatch with watch = false: substitute the default
profile name, load the configuration, reject an unknown profile name
before anything else runs, then lock the session, Check the profile and
invoke the pipeline. The watch = true branch of runOrWatch loops forever
and is modelled separately by watchTrace. The final
return sessionLockErr statement returns the nil snapshot for the same
Go defer reason as in Install. -/
def Run (env : RunEnv) (profileName0 : String) :
    List Event × Option GoErr :=
  let profileName := if profileName0 = "" then "default" else profileName0
  match env.loadConfigErr with
  | some e => ([], some (GoErr.wrapped "Could not load \"config.json\"." e))
  | none =>
  match env.config.profiles.lookup profileName with
  | none => ([], some (GoErr.simple (unknownProfileMsg profileName)))
  | some profile =>
  match env.dotRegolithErr with
  | some e =>
    ([], some (GoErr.wrapped
      "Unable to get the path to regolith cache folder." e))
  | none =>
  match env.createDirErr with
  | some e =>
    ([], some (GoErr.wrapped "Failed to create a directory." e))
  | none =>
  match env.lockErr with
  | some e => ([], some (GoErr.wrapped aquireSessionLockError e))
  | none =>
  match CheckProfileImpl profile.filters with
  | (tc, some e) => (tc, some e)
  | (tc, none) =>
  match RunProfileCtx env.fs env.config profile with
  | (tp, some e) =>
    (tc ++ tp,
     some (GoErr.wrapped
       ("Failed to run profile \"" ++ profileName ++ "\"") e))
  | (tp, none) => (tc ++ tp, none)

/-- Side effects of the watch loop of runOrWatch. -/
inductive WatchEvent where
  | runPipeline (i : Nat)
  | logError (i : Nat)
  | logSuccess (i : Nat)
  | awaitChange (i : Nat)
deriving DecidableEq, Repr

/-- One iteration of the watch loop (runOrWatch lines 314-326): run the
pipeline; on failure log the error, on success log success; then suspend
in AwaitInterruption (modelled from the spec: AwaitInterruption is not
under src/; per spec section 4.6 it suspends until a filesystem change
event or a termination signal arrives). -/
def watchIteration (outcome : Option GoErr) (i : Nat) : List WatchEvent :=
  [WatchEvent.runPipeline i] ++
    (match outcome with
     | some _ => [WatchEvent.logError i]
     | none => [WatchEvent.logSuccess i]) ++
    [WatchEvent.awaitChange i]

/-- The trace of the first n iterations of the watch loop, where
outcomes gives the pipeline result of each iteration. -/
def watchTrace (outcomes : Nat → Option GoErr) : Nat → List WatchEvent
  | 0 => []
  | n + 1 =>
    watchTrace outcomes n ++ watchIteration (outcomes n) n

/-! Concrete instances used to exercise the model on closed inputs. -/

/-- A file-system environment in which every call succeeds and every
configured source path is a directory. -/
def okFs : FsEnv :=
  { removeTmpErr := none
    mkdirTmpErr := none
    stat := fun _ => StatResult.dir
    mkdirRoleErr := fun _ => none
    copyErr := fun _ _ => none
    exportErr := none
    removeTmpDataErr := none }

/-- A file-system environment in which every configured source path is a
regular file. -/
def fileFs : FsEnv := { okFs with stat := fun _ => StatResult.file }

/-- A file-system environment in which os.Stat on the resource folder
fails with a non-not-exist error (for example a permission error). -/
def permFs : FsEnv :=
  { okFs with
    stat := fun p =>
      if p = "packs/RP" then StatResult.otherErr (GoErr.simple "permission denied")
      else StatResult.dir }

/-- An enabled filter whose Check and Run succeed. -/
def cFilterOk : FilterRunner :=
  { id := "f1", arguments := [], disabled := false,
    checkResult := none, runResult := none }

/-- A disabled filter whose Check fails. -/
def cFilterDisabledBad : FilterRunner :=
  { id := "bad", arguments := [], disabled := true,
    checkResult := some (GoErr.simple "missing interpreter"),
    runResult := none }

/-- A development export target. -/
def cTarget : ExportTarget := { target := "development", readOnly := false }

/-- A profile with one healthy filter. -/
def cProfileOk : Profile := { filters := [cFilterOk], exportTarget := cTarget }

/-- A profile whose only filter is disabled and fails Check. -/
def cProfileDisabledBad : Profile :=
  { filters := [cFilterDisabledBad], exportTarget := cTarget }

/-- A configuration with the healthy profile under the name dev. -/
def cConfigOk : Config :=
  { name := "proj", resourceFolder := "packs/RP",
    behaviorFolder := "packs/BP", dataPath := "packs/data",
    profiles := [("dev", cProfileOk)] }

/-- A configuration whose dev profile holds the disabled failing
filter. -/
def cConfigDisabledBad : Config :=
  { cConfigOk with profiles := [("dev", cProfileDisabledBad)] }

/-- A remote filter used as the parent of a sub-filter expansion. -/
def cRemote : RemoteFilter :=
  { id := "parent", arguments := [], downloadPath := "cache/parent" }

/-- A non-remote sub-filter runner. -/
def cRunnerSub : FilterRunner :=
  { id := "parent:subfilter0", arguments := [], disabled := false,
    checkResult := none, runResult := none }

/-- An install environment in which every external step succeeds and the
argument list is empty. -/
def cInstallEnvBase : InstallEnv :=
  { parseResult := Except.ok []
    loadConfigErr := none
    dataPathErr := none
    filterDefsErr := none
    filterDefinitions := []
    dotRegolithErr := none
    lockErr := none
    releaseErr := none
    download := fun _ => Except.error (GoErr.simple "network unavailable")
    installFiltersErr := none
    writeErr := none }

/-- An install request tracking HEAD. -/
def cArg : ParsedArg :=
  { url := "github.com/u/repo", name := "repo", version := "HEAD" }

/-- The install environment for the already-installed scenario: the
requested filter name is already a key of filterDefinitions. -/
def c5Env : InstallEnv :=
  { cInstallEnvBase with
    parseResult := Except.ok [cArg], filterDefinitions := ["repo"] }

/-- The install environment for the lock-release scenario: every step of
the command succeeds but releasing the session lock fails. -/
def c6Env : InstallEnv :=
  { cInstallEnvBase with
    releaseErr := some (GoErr.simple "failed to release the session lock") }

/-- The install environment for the version-pinning scenario: the remote
resolution of the HEAD specifier yields a concrete commit hash. -/
def c8Env : InstallEnv :=
  { cInstallEnvBase with
    parseResult := Except.ok [cArg]
    download := fun _ =>
      Except.ok { url := "github.com/u/repo", version := "c0ffee1" } }

/-- A run environment with the healthy configuration. -/
def cRunEnv : RunEnv :=
  { loadConfigErr := none, config := cConfigOk, dotRegolithErr := none,
    createDirErr := none, lockErr := none, releaseErr := none, fs := okFs }

/-! Helper lemmas shared by the claim theorems. -/

theorem checkEv_not_run_export (ev : Event) (h : isCheckEv ev = true) :
    isRunEv ev = false ∧ isExportEv ev = false := by
  cases ev <;> simp [isCheckEv, isRunEv, isExportEv] at h ⊢

theorem stageEv_not_run_export (ev : Event) (h : isStageEv ev = true) :
    isRunEv ev = false ∧ isExportEv ev = false := by
  cases ev <;> simp [isStageEv, isRunEv, isExportEv] at h ⊢

theorem CheckProfileImpl_all_ok (fs : List FilterRunner)
    (h : ∀ f ∈ fs, f.checkResult = none) :
    CheckProfileImpl fs = (fs.map (fun f => Event.checked f.id), none) := by
  induction fs with
  | nil => rfl
  | cons f fs ih =>
    have hf : f.checkResult = none := h f (by simp)
    have ht := ih (fun g hg => h g (by simp [hg]))
    simp [CheckProfileImpl, hf, ht]

theorem CheckProfileImpl_first_fail (pre : List FilterRunner)
    (f : FilterRunner) (post : List FilterRunner) (e : GoErr)
    (hpre : ∀ g ∈ pre, g.checkResult = none)
    (hf : f.checkResult = some e) :
    CheckProfileImpl (pre ++ f :: post) =
      (pre.map (fun g => Event.checked g.id) ++ [Event.checked f.id],
       some (GoErr.wrapped "Filter check failed." e)) := by
  induction pre with
  | nil => simp [CheckProfileImpl, hf]
  | cons g gs ih =>
    have hg : g.checkResult = none := hpre g (by simp)
    have ht := ih (fun x hx => hpre x (by simp [hx]))
    simp [CheckProfileImpl, hg, ht]

theorem CheckProfileImpl_none_all (fs : List FilterRunner)
    (h : (CheckProfileImpl fs).2 = none) :
    (CheckProfileImpl fs).1 = fs.map (fun f => Event.checked f.id) ∧
      ∀ f ∈ fs, f.checkResult = none := by
  induction fs with
  | nil => simp [CheckProfileImpl]
  | cons f fs ih =>
    rcases hf : f.checkResult with _ | e
    · rcases ht : CheckProfileImpl fs with ⟨t, r⟩
      have h' : r = none := by
        have hx := h
        simp [CheckProfileImpl, hf, ht] at hx
        exact hx
      subst h'
      have hih := ih (by simp [ht])
      have hmap : t = fs.map (fun f => Event.checked f.id) := by
        have := hih.1
        rwa [ht] at this
      refine ⟨by simp [CheckProfileImpl, hf, ht, hmap], ?_⟩
      intro g hg
      rcases List.mem_cons.mp hg with hg | hg
      · rw [hg]; exact hf
      · exact hih.2 g hg
    · exfalso
      simp [CheckProfileImpl, hf] at h

theorem CheckProfileImpl_events (fs : List FilterRunner) :
    ∀ ev ∈ (CheckProfileImpl fs).1, isCheckEv ev = true := by
  induction fs with
  | nil => simp [CheckProfileImpl]
  | cons f fs ih =>
    rcases hf : f.checkResult with _ | e
    · rcases ht : CheckProfileImpl fs with ⟨t, r⟩
      intro ev hev
      simp [CheckProfileImpl, hf, ht] at hev
      rcases hev with hev | hev
      · simp [hev, isCheckEv]
      · exact ih ev (by simp [ht, hev])
    · intro ev hev
      simp [CheckProfileImpl, hf] at hev
      simp [hev, isCheckEv]

theorem RunProfileImpl_events (fs : List FilterRunner) :
    ∀ ev ∈ (RunProfileImpl fs).1,
      ∃ g, g ∈ fs ∧ g.disabled = false ∧ ev = Event.ran g.id := by
  induction fs with
  | nil => simp [RunProfileImpl]
  | cons f fs ih =>
    intro ev hev
    by_cases hd : f.disabled
    · have : ev ∈ (RunProfileImpl fs).1 := by
        simpa [RunProfileImpl, hd] using hev
      rcases ih ev this with ⟨g, hg, hgd, hge⟩
      exact ⟨g, by simp [hg], hgd, hge⟩
    · rcases hf : f.runResult with _ | e
      · rcases ht : RunProfileImpl fs with ⟨t, r⟩
        simp [RunProfileImpl, hd, hf, ht] at hev
        rcases hev with hev | hev
        · exact ⟨f, by simp, by simpa using hd, hev⟩
        · rcases ih ev (by simp [ht, hev]) with ⟨g, hg, hgd, hge⟩
          exact ⟨g, by simp [hg], hgd, hge⟩
      · simp [RunProfileImpl, hd, hf] at hev
        exact ⟨f, by simp, by simpa using hd, hev⟩

theorem RunProfileImpl_events_run (fs : List FilterRunner) :
    ∀ ev ∈ (RunProfileImpl fs).1, isRunEv ev = true := by
  intro ev hev
  rcases RunProfileImpl_events fs ev hev with ⟨g, _, _, hge⟩
  simp [hge, isRunEv]

theorem setup_tmp_directory_events (env : FsEnv) (p s d : String) :
    ∀ ev ∈ (setup_tmp_directory env p s d).1,
      ev = Event.warnMissing d p ∨ ev = Event.mkdirRole s ∨
        ev = Event.copyRole p s := by
  intro ev hev
  unfold setup_tmp_directory at hev
  by_cases hp : p = ""
  · simp [hp] at hev
    rcases h : env.mkdirRoleErr s with _ | e <;> simp [h] at hev <;>
      simp [hev]
  · simp [hp] at hev
    rcases hst : env.stat p with _ | e | _ | _ <;> simp [hst] at hev
    · rcases h : env.mkdirRoleErr s with _ | e <;> simp [h] at hev <;>
        rcases hev with hev | hev <;> simp [hev]
    · rcases h : env.copyErr p s with _ | e <;> simp [h] at hev <;>
        simp [hev]

theorem setup_tmp_directory_events_stage (env : FsEnv) (p s d : String) :
    ∀ ev ∈ (setup_tmp_directory env p s d).1, isStageEv ev = true := by
  intro ev hev
  rcases setup_tmp_directory_events env p s d ev hev with h | h | h <;>
    simp [h, isStageEv]

theorem SetupTmpFiles_events (env : FsEnv) (config : Config) :
    ∀ ev ∈ (SetupTmpFiles env config).1,
      ev = Event.removeTmp ∨ ev = Event.mkdirTmp ∨
      ev ∈ (setup_tmp_directory env config.resourceFolder "RP"
              "resource folder").1 ∨
      ev ∈ (setup_tmp_directory env config.behaviorFolder "BP"
              "behavior folder").1 ∨
      ev ∈ (setup_tmp_directory env config.dataPath "data"
              "data folder").1 := by
  intro ev hev
  unfold SetupTmpFiles at hev
  rcases h1 : env.removeTmpErr with _ | e
  · rcases h2 : env.mkdirTmpErr with _ | e
    · rcases h3 : setup_tmp_directory env config.resourceFolder "RP"
          "resource folder" with ⟨t1, r1⟩
      rcases h4 : setup_tmp_directory env config.behaviorFolder "BP"
          "behavior folder" with ⟨t2, r2⟩
      rcases h5 : setup_tmp_directory env config.dataPath "data"
          "data folder" with ⟨t3, r3⟩
      rcases r1 with _ | e1
      · rcases r2 with _ | e2
        · rcases r3 with _ | e3 <;>
          · simp [h1, h2, h3, h4, h5] at hev
            simp [h3, h4, h5]
            tauto
        · simp [h1, h2, h3, h4] at hev
          simp [h3, h4]
          tauto
      · simp [h1, h2, h3] at hev
        simp [h3]
        tauto
    · simp [h1, h2] at hev
      tauto
  · simp [h1] at hev
    simp [hev]

theorem SetupTmpFiles_events_stage (env : FsEnv) (config : Config) :
    ∀ ev ∈ (SetupTmpFiles env config).1, isStageEv ev = true := by
  intro ev hev
  rcases SetupTmpFiles_events env config ev hev with h | h | h | h | h
  · simp [h, isStageEv]
  · simp [h, isStageEv]
  · exact setup_tmp_directory_events_stage env _ _ _ ev h
  · exact setup_tmp_directory_events_stage env _ _ _ ev h
  · exact setup_tmp_directory_events_stage env _ _ _ ev h

/-! Claim theorems. -/

/-- Claim C2: the Check phase invokes Check on every Filter Runner of the
collection, including runners whose disabled flag is set, and aborts on
the first Check failure; the Run phase skips a disabled runner entirely.
Hence a Check failure on a disabled filter still aborts the pipeline:
RunProfile stops after the failing check, with no stage, run or export
effect. -/
theorem check_covers_disabled_and_aborts
    (pre : List FilterRunner) (f : FilterRunner) (post : List FilterRunner)
    (e : GoErr) (env : FsEnv) (config : Config) (pname : String)
    (et : ExportTarget)
    (hpre : ∀ g ∈ pre, g.checkResult = none)
    (hf : f.checkResult = some e)
    (hdis : f.disabled = true)
    (hlook : config.profiles.lookup pname =
      some { filters := pre ++ f :: post, exportTarget := et }) :
    CheckProfileImpl (pre ++ f :: post) =
      (pre.map (fun g => Event.checked g.id) ++ [Event.checked f.id],
       some (GoErr.wrapped "Filter check failed." e)) ∧
    RunProfile env none config pname =
      (pre.map (fun g => Event.checked g.id) ++ [Event.checked f.id],
       some (GoErr.wrapped "Filter check failed." e)) ∧
    (∀ fs : List FilterRunner, (∀ g ∈ fs, g.checkResult = none) →
      CheckProfileImpl fs = (fs.map (fun g => Event.checked g.id), none)) ∧
    (∀ (fs : List FilterRunner) (ev : Event), ev ∈ (RunProfileImpl fs).1 →
      ∃ g, g ∈ fs ∧ g.disabled = false ∧ ev = Event.ran g.id) := by
  have hcp := CheckProfileImpl_first_fail pre f post e hpre hf
  refine ⟨hcp, ?_, CheckProfileImpl_all_ok, RunProfileImpl_events⟩
  simp [RunProfile, lookupProfile, hlook, hcp]

/-- Witness for claim C2: a profile whose only filter is disabled and
fails Check makes the whole pipeline abort with the check error, and
nothing but that check appears in the effect trace. -/
theorem check_covers_disabled_and_aborts_witness :
    RunProfile okFs none cConfigDisabledBad "dev" =
      ([Event.checked "bad"],
       some (GoErr.wrapped "Filter check failed."
         (GoErr.simple "missing interpreter"))) :=
  (check_covers_disabled_and_aborts [] cFilterDisabledBad []
    (GoErr.simple "missing interpreter") okFs cConfigDisabledBad "dev"
    cTarget (by simp) rfl rfl rfl).2.1

/-- Claim C3: RunProfile drives the four phases in the order Check,
Stage, Run, Export; each later phase starts only after the previous one
completed over the whole collection (a Check failure leaves only check
events, a Stage failure leaves no run or export events, a Run failure
leaves no export event), and after a successful export the transient
.regolith/tmp/data subdirectory is deleted. -/
theorem runProfile_phase_order
    (env : FsEnv) (config : Config) (pname : String) (prof : Profile)
    (hlook : config.profiles.lookup pname = some prof) :
    (∀ e, (CheckProfileImpl prof.filters).2 = some e →
      RunProfile env none config pname =
        ((CheckProfileImpl prof.filters).1, some e)) ∧
    ((CheckProfileImpl prof.filters).2 = none →
     ∀ e, (SetupTmpFiles env config).2 = some e →
      RunProfile env none config pname =
        ((CheckProfileImpl prof.filters).1 ++ (SetupTmpFiles env config).1,
         some (GoErr.wrapped "Unable to setup profile." e))) ∧
    ((CheckProfileImpl prof.filters).2 = none →
     (SetupTmpFiles env config).2 = none →
     ∀ e, (RunProfileImpl prof.filters).2 = some e →
      RunProfile env none config pname =
        ((CheckProfileImpl prof.filters).1 ++ (SetupTmpFiles env config).1 ++
           (RunProfileImpl prof.filters).1, some e)) ∧
    ((CheckProfileImpl prof.filters).2 = none →
     (SetupTmpFiles env config).2 = none →
     (RunProfileImpl prof.filters).2 = none →
     ∀ e, env.exportErr = some e →
      RunProfile env none config pname =
        ((CheckProfileImpl prof.filters).1 ++ (SetupTmpFiles env config).1 ++
           (RunProfileImpl prof.filters).1 ++ [Event.exported],
         some (GoErr.wrapped "Exporting project failed." e))) ∧
    ((CheckProfileImpl prof.filters).2 = none →
     (SetupTmpFiles env config).2 = none →
     (RunProfileImpl prof.filters).2 = none →
     env.exportErr = none →
      (RunProfile env none config pname).1 =
        (CheckProfileImpl prof.filters).1 ++ (SetupTmpFiles env config).1 ++
          (RunProfileImpl prof.filters).1 ++
          [Event.exported, Event.removeTmpData]) ∧
    ((CheckProfileImpl prof.filters).2 = none →
      (CheckProfileImpl prof.filters).1 =
        prof.filters.map (fun g => Event.checked g.id)) ∧
    (∀ ev ∈ (CheckProfileImpl prof.filters).1, isCheckEv ev = true) ∧
    (∀ ev ∈ (SetupTmpFiles env config).1, isStageEv ev = true) ∧
    (∀ ev ∈ (RunProfileImpl prof.filters).1, isRunEv ev = true) := by
  refine ⟨?_, ?_, ?_, ?_, ?_,
    fun h => (CheckProfileImpl_none_all _ h).1,
    CheckProfileImpl_events _, SetupTmpFiles_events_stage env config,
    RunProfileImpl_events_run _⟩
  · intro e he
    rcases hc : CheckProfileImpl prof.filters with ⟨tc, rc⟩
    rw [hc] at he
    simp at he
    subst he
    simp [RunProfile, lookupProfile, hlook, hc]
  · intro hc0 e hs0
    rcases hc : CheckProfileImpl prof.filters with ⟨tc, rc⟩
    rw [hc] at hc0
    simp at hc0
    subst hc0
    rcases hs : SetupTmpFiles env config with ⟨ts, rs⟩
    rw [hs] at hs0
    simp at hs0
    subst hs0
    simp [RunProfile, lookupProfile, hlook, hc, hs]
  · intro hc0 hs0 e hr0
    rcases hc : CheckProfileImpl prof.filters with ⟨tc, rc⟩
    rw [hc] at hc0
    simp at hc0
    subst hc0
    rcases hs : SetupTmpFiles env config with ⟨ts, rs⟩
    rw [hs] at hs0
    simp at hs0
    subst hs0
    rcases hr : RunProfileImpl prof.filters with ⟨tr, rr⟩
    rw [hr] at hr0
    simp at hr0
    subst hr0
    simp [RunProfile, lookupProfile, hlook, hc, hs, hr]
  · intro hc0 hs0 hr0 e hex
    rcases hc : CheckProfileImpl prof.filters with ⟨tc, rc⟩
    rw [hc] at hc0
    simp at hc0
    subst hc0
    rcases hs : SetupTmpFiles env config with ⟨ts, rs⟩
    rw [hs] at hs0
    simp at hs0
    subst hs0
    rcases hr : RunProfileImpl prof.filters with ⟨tr, rr⟩
    rw [hr] at hr0
    simp at hr0
    subst hr0
    simp [RunProfile, lookupProfile, hlook, hc, hs, hr, hex]
  · intro hc0 hs0 hr0 hex
    rcases hc : CheckProfileImpl prof.filters with ⟨tc, rc⟩
    rw [hc] at hc0
    simp at hc0
    subst hc0
    rcases hs : SetupTmpFiles env config with ⟨ts, rs⟩
    rw [hs] at hs0
    simp at hs0
    subst hs0
    rcases hr : RunProfileImpl prof.filters with ⟨tr, rr⟩
    rw [hr] at hr0
    simp at hr0
    subst hr0
    rcases hrm : env.removeTmpDataErr with _ | e0 <;>
      simp [RunProfile, lookupProfile, hlook, hc, hs, hr, hex, hrm]

/-- Witness for claim C3: on a healthy configuration the pipeline trace
is exactly check, stage, run, export, data cleanup, in that order. -/
theorem runProfile_phase_order_witness :
    (RunProfile okFs none cConfigOk "dev").1 =
      (CheckProfileImpl cProfileOk.filters).1 ++
        (SetupTmpFiles okFs cConfigOk).1 ++
        (RunProfileImpl cProfileOk.filters).1 ++
        [Event.exported, Event.removeTmpData] :=
  (runProfile_phase_order okFs cConfigOk "dev" cProfileOk
    rfl).2.2.2.2.1 rfl rfl rfl rfl

/-- Claim C4: during staging, a configured source path that does not
exist yields a warning and an empty placeholder subdirectory without
failing, while a configured source path that is a regular file makes
SetupTmpFiles fail, so the pipeline aborts during Stage and no filter
runs and nothing is exported. -/
theorem stage_source_path_handling
    (env : FsEnv) (config : Config) (pname : String)
    (path short descr : String)
    (hpath : path ≠ "") :
    (env.stat path = StatResult.notExist → env.mkdirRoleErr short = none →
      setup_tmp_directory env path short descr =
        ([Event.warnMissing descr path, Event.mkdirRole short], none)) ∧
    (env.stat path = StatResult.file →
      setup_tmp_directory env path short descr =
        ([], some (GoErr.simple
          (descr ++ " path \"" ++ path ++ "\" is not a directory")))) ∧
    (config.resourceFolder = path → env.stat path = StatResult.file →
     env.removeTmpErr = none → env.mkdirTmpErr = none →
     (CheckProfileImpl (lookupProfile config.profiles pname).filters).2 =
       none →
      (RunProfile env none config pname).2 =
        some (GoErr.wrapped "Unable to setup profile."
          (GoErr.wrapped
            "Failed to setup resource folder in the temporary directory."
            (GoErr.simple
              ("resource folder path \"" ++ path ++
               "\" is not a directory")))) ∧
      ∀ ev ∈ (RunProfile env none config pname).1,
        isRunEv ev = false ∧ isExportEv ev = false) := by
  refine ⟨?_, ?_, ?_⟩
  · intro hst hmk
    simp [setup_tmp_directory, hpath, hst, hmk]
  · intro hst
    simp [setup_tmp_directory, hpath, hst]
  · intro hrp hst hrm hmk hc0
    have hsetup : setup_tmp_directory env config.resourceFolder "RP"
        "resource folder" =
        ([], some (GoErr.simple
          ("resource folder path \"" ++ path ++ "\" is not a directory"))) := by
      rw [hrp]
      simp [setup_tmp_directory, hpath, hst]
    have hstage : SetupTmpFiles env config =
        ([Event.removeTmp, Event.mkdirTmp],
         some (GoErr.wrapped
           "Failed to setup resource folder in the temporary directory."
           (GoErr.simple
             ("resource folder path \"" ++ path ++
              "\" is not a directory")))) := by
      simp [SetupTmpFiles, hrm, hmk, hsetup]
    rcases hc : CheckProfileImpl
        (lookupProfile config.profiles pname).filters with ⟨tc, rc⟩
    rw [hc] at hc0
    simp at hc0
    subst hc0
    have hout : RunProfile env none config pname =
        (tc ++ [Event.removeTmp, Event.mkdirTmp],
         some (GoErr.wrapped "Unable to setup profile."
           (GoErr.wrapped
             "Failed to setup resource folder in the temporary directory."
             (GoErr.simple
               ("resource folder path \"" ++ path ++
                "\" is not a directory"))))) := by
      simp [RunProfile, hc, hstage]
    refine ⟨by simp [hout], ?_⟩
    intro ev hev
    rw [hout] at hev
    simp at hev
    rcases hev with hev | hev | hev
    · exact checkEv_not_run_export ev
        (CheckProfileImpl_events
          (lookupProfile config.profiles pname).filters ev
          (by rw [hc]; exact hev))
    · simp [hev, isRunEv, isExportEv]
    · simp [hev, isRunEv, isExportEv]

/-- Witness for claim C4: with the resource-pack path statting as a
regular file, the pipeline aborts in Stage with the is-not-a-directory
error chain. -/
theorem stage_source_path_handling_witness :
    (RunProfile fileFs none cConfigOk "dev").2 =
      some (GoErr.wrapped "Unable to setup profile."
        (GoErr.wrapped
          "Failed to setup resource folder in the temporary directory."
          (GoErr.simple
            ("resource folder path \"" ++ "packs/RP" ++
             "\" is not a directory")))) :=
  ((stage_source_path_handling fileFs cConfigOk "dev" "packs/RP" "RP"
    "resource folder" (by decide)).2.2 rfl rfl rfl rfl rfl).1

/-- Claim C10: a Stat failure other than not-exist on a configured
non-empty source path is silently swallowed by SetupTmpFiles: the
function neither fails nor creates or fills the corresponding workspace
subdirectory, so staging reports success while that role's subdirectory
is missing. -/
theorem stat_error_fallthrough
    (env : FsEnv) (config : Config) (e0 : GoErr)
    (hpath : config.resourceFolder ≠ "")
    (hstat : env.stat config.resourceFolder = StatResult.otherErr e0)
    (hrm : env.removeTmpErr = none) (hmk : env.mkdirTmpErr = none)
    (hbp : (setup_tmp_directory env config.behaviorFolder "BP"
        "behavior folder").2 = none)
    (hdata : (setup_tmp_directory env config.dataPath "data"
        "data folder").2 = none) :
    (SetupTmpFiles env config).2 = none ∧
    Event.mkdirRole "RP" ∉ (SetupTmpFiles env config).1 ∧
    (∀ p, Event.copyRole p "RP" ∉ (SetupTmpFiles env config).1) := by
  have hsetup : setup_tmp_directory env config.resourceFolder "RP"
      "resource folder" = ([], none) := by
    simp [setup_tmp_directory, hpath, hstat]
  rcases hb : setup_tmp_directory env config.behaviorFolder "BP"
      "behavior folder" with ⟨t2, r2⟩
  rw [hb] at hbp
  simp at hbp
  subst hbp
  rcases hd : setup_tmp_directory env config.dataPath "data"
      "data folder" with ⟨t3, r3⟩
  rw [hd] at hdata
  simp at hdata
  subst hdata
  have hout : SetupTmpFiles env config =
      ([Event.removeTmp, Event.mkdirTmp] ++ t2 ++ t3, none) := by
    simp [SetupTmpFiles, hrm, hmk, hsetup, hb, hd]
  refine ⟨by simp [hout], ?_, ?_⟩
  · rw [hout]
    simp
    constructor
    · intro hmem
      rcases setup_tmp_directory_events env config.behaviorFolder "BP"
          "behavior folder" (Event.mkdirRole "RP") (by simp [hb, hmem])
        with h | h | h <;> simp at h
    · intro hmem
      rcases setup_tmp_directory_events env config.dataPath "data"
          "data folder" (Event.mkdirRole "RP") (by simp [hd, hmem])
        with h | h | h <;> simp at h
  · intro p
    rw [hout]
    simp
    constructor
    · intro hmem
      rcases setup_tmp_directory_events env config.behaviorFolder "BP"
          "behavior folder" (Event.copyRole p "RP") (by simp [hb, hmem])
        with h | h | h <;> simp at h
    · intro hmem
      rcases setup_tmp_directory_events env config.dataPath "data"
          "data folder" (Event.copyRole p "RP") (by simp [hd, hmem])
        with h | h | h <;> simp at h

/-- Witness for claim C10: with a permission error on the resource
folder, SetupTmpFiles succeeds and the RP subdirectory is never created
nor copied into. -/
theorem stat_error_fallthrough_witness :
    (SetupTmpFiles permFs cConfigOk).2 = none ∧
    Event.mkdirRole "RP" ∉ (SetupTmpFiles permFs cConfigOk).1 := by
  have h := stat_error_fallthrough permFs cConfigOk
    (GoErr.simple "permission denied") (by decide) (by decide) rfl rfl
    (by decide) (by decide)
  exact ⟨h.1, h.2.1⟩

theorem subfilterLoop_remote (f : RemoteFilter) (path : String) :
    ∀ (pre : List SubEntry) (i : Nat) (r : FilterRunner)
      (post : List SubEntry),
      (∀ x ∈ pre, ∃ g, x = SubEntry.runner false g) →
      subfilterLoop f path (pre ++ SubEntry.runner true r :: post) i =
        Except.error
          (GoErr.simple (remoteSubfilterMsg f.id (i + pre.length))) := by
  intro pre
  induction pre with
  | nil =>
    intro i r post _
    simp [subfilterLoop]
  | cons x xs ih =>
    intro i r post hpre
    rcases hpre x (by simp) with ⟨g, hg⟩
    subst hg
    have ht := ih (i + 1) r post (fun y hy => hpre y (by simp [hy]))
    have harith : i + 1 + xs.length = i + (xs.length + 1) := by omega
    rw [harith] at ht
    simp [subfilterLoop, ht]

theorem subfilterLoop_no_ok (f : RemoteFilter) (path : String) :
    ∀ (entries : List SubEntry) (i : Nat) (g : FilterRunner),
      SubEntry.runner true g ∈ entries →
      ∀ c, subfilterLoop f path entries i ≠ Except.ok c := by
  intro entries
  induction entries with
  | nil => simp
  | cons x xs ih =>
    intro i g hmem c
    rcases List.mem_cons.mp hmem with hx | hx
    · subst hx
      simp [subfilterLoop]
    · cases x with
      | notMap => simp [subfilterLoop]
      | installerErr e => simp [subfilterLoop]
      | runnerErr e => simp [subfilterLoop]
      | runner isRemote r =>
        cases isRemote with
        | true => simp [subfilterLoop]
        | false =>
          rcases ht : subfilterLoop f path xs (i + 1) with e | rs
          · simp [subfilterLoop, ht]
          · exact absurd ht (ih (i + 1) g hx rs)

/-- Claim C1: expanding a remote filter whose descriptor lists a remote
sub-filter fails: if the entries before index i all resolve to non-remote
runners and entry i resolves to a remote one, SubfilterCollection returns
exactly the error naming the parent filter id and the sub-filter index
(both occur verbatim in the message), and whenever any entry of the
descriptor resolves to a remote runner no collection is ever returned. -/
theorem subfilterCollection_rejects_remote
    (f : RemoteFilter) (pre post : List SubEntry) (r : FilterRunner)
    (hpre : ∀ x ∈ pre, ∃ g, x = SubEntry.runner false g) :
    SubfilterCollection f
        (DescriptorFile.filters (pre ++ SubEntry.runner true r :: post)) =
      Except.error (GoErr.simple (remoteSubfilterMsg f.id pre.length)) ∧
    (∃ p q, remoteSubfilterMsg f.id pre.length = p ++ f.id ++ q) ∧
    (∃ p q, remoteSubfilterMsg f.id pre.length =
      p ++ toString pre.length ++ q) ∧
    (∀ (entries : List SubEntry) (g : FilterRunner) (c : List FilterRunner),
      SubEntry.runner true g ∈ entries →
      SubfilterCollection f (DescriptorFile.filters entries) ≠
        Except.ok c) := by
  refine ⟨?_, ?_, ?_, ?_⟩
  · have h := subfilterLoop_remote f (f.downloadPath ++ "/filter.json")
      pre 0 r post hpre
    simpa [SubfilterCollection] using h
  · refine ⟨"remote filters are not allowed in subfilters. Remote filter \"",
      "\" subfilter " ++ toString pre.length, ?_⟩
    simp [remoteSubfilterMsg, String.append_assoc]
  · refine ⟨"remote filters are not allowed in subfilters. Remote filter \"" ++
      f.id ++ "\" subfilter ", "", ?_⟩
    simp [remoteSubfilterMsg, String.append_assoc, String.append_empty]
  · intro entries g c hmem
    exact subfilterLoop_no_ok f (f.downloadPath ++ "/filter.json")
      entries 0 g hmem c

/-- Witness for claim C1: a descriptor whose single entry resolves to a
remote runner makes SubfilterCollection fail with the error naming the
parent id and index 0. -/
theorem subfilterCollection_rejects_remote_witness :
    SubfilterCollection cRemote
        (DescriptorFile.filters [SubEntry.runner true cRunnerSub]) =
      Except.error (GoErr.simple (remoteSubfilterMsg "parent" 0)) :=
  (subfilterCollection_rejects_remote cRemote [] [] cRunnerSub
    (by simp)).1

theorem find_none {α : Type} (p : α → Bool) (l : List α)
    (h : ∀ b ∈ l, p b = false) : l.find? p = none := by
  induction l with
  | nil => rfl
  | cons b bs ih =>
    have hb := h b (by simp)
    simp only [List.find?, hb]
    exact ih (fun x hx => h x (by simp [hx]))

/-- Claim C5: installing, without force, a set of filters one of which is
already on the filter definitions list fails with the already-installed
message (which names the filter and tells the user to add the force
flag), before any download, cache install or configuration write: the
config file is never written and nothing is persisted. -/
theorem install_already_installed
    (env : InstallEnv) (pre post : List ParsedArg) (a : ParsedArg)
    (hparse : env.parseResult = Except.ok (pre ++ a :: post))
    (hload : env.loadConfigErr = none) (hdata : env.dataPathErr = none)
    (hdefs : env.filterDefsErr = none) (hdot : env.dotRegolithErr = none)
    (hlock : env.lockErr = none)
    (hpre : ∀ b ∈ pre, b.name ∉ env.filterDefinitions)
    (ha : a.name ∈ env.filterDefinitions) :
    Install env false =
      ⟨[CmdEvent.acquireLock, CmdEvent.releaseLock], none,
       some (GoErr.simple (alreadyInstalledMsg a.name))⟩ ∧
    (∃ p q, alreadyInstalledMsg a.name = p ++ "--force" ++ q) ∧
    (∃ p q, alreadyInstalledMsg a.name = p ++ a.name ++ q) ∧
    (Install env false).written = none ∧
    CmdEvent.writeConfig ∉ (Install env false).trace ∧
    (∀ n, CmdEvent.download n ∉ (Install env false).trace) ∧
    CmdEvent.installFilters ∉ (Install env false).trace := by
  have hpre' : List.find?
      (fun x => decide (x.name ∈ env.filterDefinitions)) pre = none :=
    find_none _ pre (fun b hb => by simp [hpre b hb])
  have ha' : List.find?
      (fun x => decide (x.name ∈ env.filterDefinitions)) (a :: post) =
      some a := by
    simp [List.find?, ha]
  have hout : Install env false =
      ⟨[CmdEvent.acquireLock, CmdEvent.releaseLock], none,
       some (GoErr.simple (alreadyInstalledMsg a.name))⟩ := by
    simp [Install, hparse, hload, hdata, hdefs, hdot, hlock, hpre', ha']
  refine ⟨hout, ?_, ?_, by simp [hout], by simp [hout],
    by simp [hout], by simp [hout]⟩
  · refine ⟨"The filter is already on the filter definitions list.\nFilter: " ++
      a.name ++
      "\nIf you want to force the installation of the filter, " ++
      "please add \"",
      "\" flag to your " ++ "\"regolith install\" command", ?_⟩
    simp [alreadyInstalledMsg, String.append_assoc]
  · refine ⟨"The filter is already on the filter definitions list.\nFilter: ",
      "\nIf you want to force the installation of the filter, " ++
      "please add \"" ++ "--force" ++ "\" flag to your " ++
      "\"regolith install\" command", ?_⟩
    simp [alreadyInstalledMsg, String.append_assoc]

/-- Witness for claim C5: requesting the already-present filter repo
without force fails with the already-installed error and the config file
is not written. -/
theorem install_already_installed_witness :
    Install c5Env false =
      ⟨[CmdEvent.acquireLock, CmdEvent.releaseLock], none,
       some (GoErr.simple (alreadyInstalledMsg "repo"))⟩ :=
  (install_already_installed c5Env [] [] cArg rfl rfl rfl rfl rfl rfl
    (by simp) (by simp [c5Env, cArg])).1

/-- Claim C6 evidence: on a command that otherwise completes without
error, a session-lock release failure is NOT reported to the caller.
Because the Go function's result parameter is unnamed, the deferred
assignment sessionLockErr = unlockSession() runs after the value of the
final return sessionLockErr statement is fixed, so Install returns nil
here even though the release failed, contradicting the comment
Return the error from the defer function on the return statement. -/
theorem install_release_error_discarded :
    c6Env.releaseErr =
      some (GoErr.simple "failed to release the session lock") ∧
    Install c6Env false =
      ⟨[CmdEvent.acquireLock, CmdEvent.installFilters,
        CmdEvent.writeConfig, CmdEvent.releaseLock],
       some [], none⟩ ∧
    (Install c6Env false).ret = none := by
  refine ⟨rfl, rfl, rfl⟩

/-- Claim C8: when the requested version specifier is the literal HEAD or
latest, the installer entry persisted into the configuration keeps that
literal (overwriting whatever concrete version the remote resolution
produced); otherwise the entry persists exactly the resolved definition,
which under the spec's description of FilterDefinitionFromTheInternet
carries the explicitly requested version verbatim. -/
theorem install_version_pinning
    (env : InstallEnv) (a : ParsedArg) (d : RemoteFilterDefinition)
    (resolve : ParsedArg → String) (force : Bool)
    (hparse : env.parseResult = Except.ok [a])
    (hload : env.loadConfigErr = none) (hdata : env.dataPathErr = none)
    (hdefs : env.filterDefsErr = none) (hdot : env.dotRegolithErr = none)
    (hlock : env.lockErr = none)
    (hdup : a.name ∉ env.filterDefinitions)
    (hdl : env.download a = Except.ok d)
    (hinst : env.installFiltersErr = none)
    (hwrite : env.writeErr = none) :
    ((a.version = "HEAD" ∨ a.version = "latest") →
      Install env force =
        ⟨[CmdEvent.acquireLock, CmdEvent.download a.name,
          CmdEvent.installFilters, CmdEvent.writeConfig,
          CmdEvent.releaseLock],
         some [(a.name, { d with version := a.version })], none⟩) ∧
    (¬(a.version = "HEAD" ∨ a.version = "latest") →
      Install env force =
        ⟨[CmdEvent.acquireLock, CmdEvent.download a.name,
          CmdEvent.installFilters, CmdEvent.writeConfig,
          CmdEvent.releaseLock],
         some [(a.name, d)], none⟩) ∧
    (¬(a.version = "HEAD" ∨ a.version = "latest") →
      (FilterDefinitionFromTheInternet resolve a).version = a.version) := by
  have hfind : List.find?
      (fun x => decide (x.name ∈ env.filterDefinitions)) [a] = none := by
    simp [List.find?, hdup]
  refine ⟨?_, ?_, ?_⟩
  · intro hv
    have hdlall : downloadAll env [a] =
        ([CmdEvent.download a.name],
         Except.ok [(a.name, { d with version := a.version })]) := by
      simp [downloadAll, hdl, hv]
    simp [Install, hparse, hload, hdata, hdefs, hdot, hlock, hfind,
      hdlall, hinst, hwrite]
  · intro hv
    have hdlall : downloadAll env [a] =
        ([CmdEvent.download a.name], Except.ok [(a.name, d)]) := by
      simp [downloadAll, hdl, hv]
    simp [Install, hparse, hload, hdata, hdefs, hdot, hlock, hfind,
      hdlall, hinst, hwrite]
  · intro hv
    simp [FilterDefinitionFromTheInternet, hv]

/-- Witness for claim C8: installing repo at HEAD, with the remote
resolving HEAD to the commit c0ffee1, persists the literal HEAD. -/
theorem install_version_pinning_witness :
    Install c8Env false =
      ⟨[CmdEvent.acquireLock, CmdEvent.download "repo",
        CmdEvent.installFilters, CmdEvent.writeConfig,
        CmdEvent.releaseLock],
       some [("repo",
         { url := "github.com/u/repo", version := "HEAD" })], none⟩ :=
  (install_version_pinning c8Env cArg
    { url := "github.com/u/repo", version := "c0ffee1" }
    (fun _ => "c0ffee1") false rfl rfl rfl rfl rfl rfl (by decide)
    rfl rfl rfl).1 (Or.inl rfl)

/-- Claim C7: running a profile name that is not a key of the
configuration's profile mapping fails with the error naming the unknown
profile, and the effect trace is empty: no Check, Stage, Run or Export
phase ever starts. -/
theorem run_unknown_profile
    (env : RunEnv) (pname : String)
    (hp : pname ≠ "")
    (hload : env.loadConfigErr = none)
    (hlook : env.config.profiles.lookup pname = none) :
    Run env pname = ([], some (GoErr.simple (unknownProfileMsg pname))) ∧
    (∃ p q, unknownProfileMsg pname = p ++ pname ++ q) ∧
    (∀ ev : Event, ev ∉ (Run env pname).1) := by
  have hout : Run env pname =
      ([], some (GoErr.simple (unknownProfileMsg pname))) := by
    simp [Run, hp, hload, hlook]
  refine ⟨hout, ?_, by simp [hout]⟩
  refine ⟨"Profile \"", "\" does not exist in the configuration.", ?_⟩
  simp [unknownProfileMsg, String.append_assoc]

/-- Witness for claim C7: asking for the absent profile named missing
fails with the unknown-profile error and an empty trace. -/
theorem run_unknown_profile_witness :
    Run cRunEnv "missing" =
      ([], some (GoErr.simple (unknownProfileMsg "missing"))) :=
  (run_unknown_profile cRunEnv "missing" (by decide) rfl (by decide)).1

/-- Claim C9: the watch loop never terminates on a failed pipeline run:
each iteration runs the pipeline, logs the error on failure or success
otherwise, and then suspends awaiting a filesystem change or termination
signal; every iteration below n appears in the n-iteration trace with its
final suspension, regardless of the outcomes of earlier iterations. -/
theorem watch_loop_continues
    (outcomes : Nat → Option GoErr) (n i : Nat) :
    (watchTrace outcomes (n + 1) =
      watchTrace outcomes n ++ watchIteration (outcomes n) n) ∧
    (∀ e, outcomes i = some e →
      watchIteration (outcomes i) i =
        [WatchEvent.runPipeline i, WatchEvent.logError i,
         WatchEvent.awaitChange i]) ∧
    (outcomes i = none →
      watchIteration (outcomes i) i =
        [WatchEvent.runPipeline i, WatchEvent.logSuccess i,
         WatchEvent.awaitChange i]) ∧
    (i < n →
      WatchEvent.runPipeline i ∈ watchTrace outcomes n ∧
      WatchEvent.awaitChange i ∈ watchTrace outcomes n) := by
  refine ⟨rfl, ?_, ?_, ?_⟩
  · intro e he
    simp [watchIteration, he]
  · intro he
    simp [watchIteration, he]
  · intro hi
    induction n with
    | zero => omega
    | succ m ih =>
      rcases Nat.lt_succ_iff_lt_or_eq.mp hi with hlt | heq
      · have := ih hlt
        constructor <;>
        · rw [watchTrace]
          simp [this.1, this.2]
      · subst heq
        constructor <;>
        · rw [watchTrace]
          rcases h : outcomes i with _ | e <;> simp [watchIteration, h]

/-- Witness for claim C9: with a failure at iteration 0 and success at
iteration 1, both iterations appear in the two-iteration trace. -/
theorem watch_loop_continues_witness :
    WatchEvent.runPipeline 0 ∈
      watchTrace (fun j => if j = 0
        then some (GoErr.simple "filter failed") else none) 2 ∧
    WatchEvent.awaitChange 0 ∈
      watchTrace (fun j => if j = 0
        then some (GoErr.simple "filter failed") else none) 2 :=
  (watch_loop_continues
    (fun j => if j = 0 then some (GoErr.simple "filter failed") else none)
    2 0).2.2.2 (by omega)

end Regolith
